import Mathlib

/-!
Shallow embedding of `landuse_v1/handlers/nuts.py` (class `NUTSHandler`).

A pandas/geopandas `GeoDataFrame` is modelled as a list of column names
together with a list of rows; each cell is a string, a rational number,
or NaN (missing).  Python exceptions are modelled by `PyErr`
(`FileNotFoundError`, `KeyError`, `ValueError`); the spec's taxonomy maps
`NotFoundError` to `fileNotFoundError`/`keyError` and `InvalidInputError`
to `valueError`.  The filesystem and the external vector-file parser
(`gpd.read_file`) are modelled by `World`.  Each handler method is
factored into the file-reading part (`read_nuts`/`read_crop`, from
`_read_nuts`/`_read_crop`) and the pure table-level part, since each
method first loads a fresh table and then queries it.
-/

namespace LanduseV1

/-- One cell of a loaded attribute table: a string, a number, or NaN. -/
inductive Cell where
  | str (s : String)
  | num (q : ℚ)
  | nan
deriving DecidableEq

/-- The numeric content of a cell, if any (NaN and strings give `none`). -/
def Cell.num? : Cell → Option ℚ
  | .num q => some q
  | _ => none

/-- The string content of a cell, if any. -/
def Cell.str? : Cell → Option String
  | .str s => some s
  | _ => none

/-- An in-memory feature collection: column names plus rows of cells
(the geometry column plays no role in the verified operations). -/
structure GeoDataFrame where
  columns : List String
  rows : List (List Cell)
deriving DecidableEq

/-- Python exceptions raised by `NUTSHandler` and its collaborators. -/
inductive PyErr where
  | fileNotFoundError (msg : String)
  | keyError (msg : String)
  | valueError (msg : String)
deriving DecidableEq

instance {ε α : Type} [DecidableEq ε] [DecidableEq α] : DecidableEq (Except ε α) := fun x y =>
  match x, y with
  | .ok a, .ok b => decidable_of_iff (a = b) (by simp)
  | .error a, .error b => decidable_of_iff (a = b) (by simp)
  | .ok _, .error _ => isFalse (by simp)
  | .error _, .ok _ => isFalse (by simp)

/-- `true` iff the result is a `ValueError` (the spec's `InvalidInputError`). -/
def isValueError {α : Type} : Except PyErr α → Bool
  | .error (.valueError _) => true
  | _ => false

/-- Index of a column label in the table, as pandas column lookup. -/
def colIdx (g : GeoDataFrame) (c : String) : Option Nat :=
  g.columns.findIdx? (fun s => s == c)

/-- The cell of row `r` in column position `i` (missing cells read as NaN). -/
def cellAt (r : List Cell) (i : Nat) : Cell :=
  r.getD i Cell.nan

/-- All cells of column position `i`, in row order. -/
def colCells (g : GeoDataFrame) (i : Nat) : List Cell :=
  g.rows.map (fun r => cellAt r i)

/-- pandas `Series.mean()`: arithmetic mean of the numeric entries, skipping
NaN; `none` (NaN) when no numeric entry exists. -/
def meanOpt (cells : List Cell) : Option ℚ :=
  let ns := cells.filterMap Cell.num?
  if ns.isEmpty then none else some (ns.sum / (ns.length : ℚ))

/-- The filesystem and the external parser (`gpd.read_file`), as a black box:
which paths exist, and what parsing a path yields (a table, or a propagated
lower-level failure). -/
structure World where
  fileExists : String → Bool
  parseFile : String → Except PyErr GeoDataFrame

/-- `folder_name = f"{country_code}_{file_name}_NUTS{nuts_level}_{year}"`
from `_read_nuts`. -/
def nutsFolder (country_code file_name : String) (nuts_level year : Nat) : String :=
  country_code ++ "_" ++ file_name ++ "_NUTS" ++ toString nuts_level ++ "_" ++ toString year

/-- `shp_file = data_root / folder_name / f"{folder_name}.shp"` with
`data_root = <package>/Data/Yearly`, from `_read_nuts`. -/
def nutsShpPath (country_code file_name : String) (nuts_level year : Nat) : String :=
  "Data/Yearly/" ++ nutsFolder country_code file_name nuts_level year ++ "/" ++
    nutsFolder country_code file_name nuts_level year ++ ".shp"

/-- `crop_name_clean = str(crop_name).replace(" ", "_")` from `_read_crop`;
for the single-character pattern `" "` Python's `str.replace` is exactly
per-character substitution. -/
def crop_name_clean (crop_name : String) : String :=
  String.mk (crop_name.data.map (fun c => if c = ' ' then '_' else c))

/-- `folder_name = f"DE_landuse_{crop_name_clean}_NUTS{nuts_level}_{year}"`
from `_read_crop`. -/
def cropFolder (crop_name : String) (nuts_level year : Nat) : String :=
  "DE_landuse_" ++ crop_name_clean crop_name ++ "_NUTS" ++ toString nuts_level ++
    "_" ++ toString year

/-- `shp_file = data_root / folder_name / f"{folder_name}.shp"` from
`_read_crop`. -/
def cropShpPath (crop_name : String) (nuts_level year : Nat) : String :=
  "Data/Yearly/" ++ cropFolder crop_name nuts_level year ++ "/" ++
    cropFolder crop_name nuts_level year ++ ".shp"

/-- `NUTSHandler._read_nuts`: raise `FileNotFoundError` when the shapefile is
missing, otherwise hand the path to `gpd.read_file`. -/
def read_nuts (w : World) (country_code file_name : String) (nuts_level year : Nat) :
    Except PyErr GeoDataFrame :=
  let shp := nutsShpPath country_code file_name nuts_level year
  if w.fileExists shp then w.parseFile shp
  else .error (.fileNotFoundError ("NUTS shapefile not found: " ++ shp))

/-- `NUTSHandler._read_crop`: raise `FileNotFoundError` when the shapefile is
missing, otherwise hand the path to `gpd.read_file`. -/
def read_crop (w : World) (crop_name : String) (nuts_level year : Nat) :
    Except PyErr GeoDataFrame :=
  let shp := cropShpPath crop_name nuts_level year
  if w.fileExists shp then w.parseFile shp
  else .error (.fileNotFoundError ("Crop shapefile not found: " ++ shp))

/-- Python `str.endswith`: character-level suffix match. -/
def endswith (s sfx : String) : Bool :=
  sfx.data.isSuffixOf s.data

/-- `[c for c in gdf.columns if c.endswith("_mean")]`: the table-level part of
`NUTSHandler.mean_columns` (the method applies it to a freshly loaded table). -/
def mean_columns (g : GeoDataFrame) : List String :=
  g.columns.filter (fun c => endswith c "_mean")

/-- The default mean-column selection shared by `plot_mean` and
`get_district_value`: an explicitly requested column is used as is; otherwise
the first `*_mean` column, and `ValueError` when none exists. -/
def pickMeanColumn (g : GeoDataFrame) : Option String → Except PyErr String
  | some c => .ok c
  | none =>
    match mean_columns g with
    | [] => .error (.valueError "No *_mean column found.")
    | c :: _ => .ok c

/-- `gdf[gdf["NUTS_ID"] == nuts_id]` given the position `i` of `NUTS_ID`:
rows whose key cell equals the requested string. -/
def idFilter (g : GeoDataFrame) (i : Nat) (nuts_id : String) : List (List Cell) :=
  g.rows.filter (fun r => cellAt r i == Cell.str nuts_id)

/-- `NUTSHandler.get_district_value`, table-level part: pick the mean column,
filter by `NUTS_ID`, raise `KeyError` on an empty result, else return the
first matching row's cell (`district.iloc[0][mean_column]`). -/
def get_district_value (g : GeoDataFrame) (nuts_id : String) (nuts_level : Nat)
    (mean_column : Option String) : Except PyErr Cell :=
  match pickMeanColumn g mean_column with
  | .error e => .error e
  | .ok mc =>
    match colIdx g "NUTS_ID" with
    | none => .error (.keyError "NUTS_ID")
    | some i =>
      match idFilter g i nuts_id with
      | [] => .error (.keyError ("District " ++ nuts_id ++ " not found in NUTS" ++
          toString nuts_level ++ "."))
      | r :: _ =>
        match colIdx g mc with
        | none => .error (.keyError mc)
        | some j => .ok (cellAt r j)

/-- `NUTSHandler.get_nuts_names`, table-level part:
`gdf["NUTS_NAME"].tolist()`. -/
def get_nuts_names (g : GeoDataFrame) : Except PyErr (List Cell) :=
  match colIdx g "NUTS_NAME" with
  | none => .error (.keyError "NUTS_NAME")
  | some k => .ok (g.rows.map (fun r => cellAt r k))

/-- `NUTSHandler.get_crop_mean`, table-level part: `ValueError` when the
column is absent, else the whole-column mean. -/
def get_crop_mean (g : GeoDataFrame) (column : String) : Except PyErr (Option ℚ) :=
  match colIdx g column with
  | none => .error (.valueError ("Column " ++ column ++ " not found in crop shapefile."))
  | some j => .ok (meanOpt (colCells g j))

/-- The distinct string values of column position `k` (pandas groupby keys;
NaN group keys are dropped, as pandas does). -/
def groupLabels (g : GeoDataFrame) (k : Nat) : List String :=
  (g.rows.filterMap (fun r => (cellAt r k).str?)).dedup

/-- The rows whose cell at position `k` is the string `key`. -/
def groupRows (g : GeoDataFrame) (k : Nat) (key : String) : List (List Cell) :=
  g.rows.filter (fun r => cellAt r k == Cell.str key)

/-- `NUTSHandler.get_crop_mean_per_district`, table-level part: `ValueError`
when the value column is absent, `KeyError` when `NUTS_NAME` is absent, else
`gdf.groupby("NUTS_NAME")[column].mean().to_dict()` as an association list. -/
def get_crop_mean_per_district (g : GeoDataFrame) (column : String) :
    Except PyErr (List (String × Option ℚ)) :=
  match colIdx g column with
  | none => .error (.valueError ("Column " ++ column ++ " not found in crop shapefile."))
  | some j =>
    match colIdx g "NUTS_NAME" with
    | none => .error (.keyError "Column 'NUTS_NAME' not found in crop shapefile.")
    | some k =>
      .ok ((groupLabels g k).map
        (fun key => (key, meanOpt ((groupRows g k key).map (fun r => cellAt r j)))))

/-! Concrete fixtures used to instantiate the theorems below. -/

/-- A world where every path exists and parsing returns a table recording the
parsed path in its column list. -/
def wTest : World := ⟨fun _ => true, fun s => .ok ⟨[s], []⟩⟩

/-- A one-column, zero-row table. -/
def gT : GeoDataFrame := ⟨["NUTS_ID"], []⟩

/-- A world where every path exists and parsing always returns `gT`. -/
def wConst : World := ⟨fun _ => true, fun _ => .ok gT⟩

/-- The spec's grouping example: rows `[("A",10),("A",20),("B",5)]`. -/
def gCropEx : GeoDataFrame :=
  ⟨["NUTS_NAME", "value"],
   [[.str "A", .num 10], [.str "A", .num 20], [.str "B", .num 5]]⟩

/-- A small boundary table with two `*_mean` columns, NaN cells and a
duplicated `NUTS_NAME` label. -/
def gNuts : GeoDataFrame :=
  ⟨["NUTS_ID", "NUTS_NAME", "t_mean", "p_mean"],
   [[.str "DE0", .str "X", .num 1, .num 2],
    [.str "DE1", .str "X", .num 7, .nan],
    [.str "DE2", .str "Y", .nan, .num 4]]⟩

/-- A table with no `*_mean` column. -/
def gNoMean : GeoDataFrame := ⟨["NUTS_ID", "value"], [[.str "DE0", .num 1]]⟩

/-- A crop table that lacks the `NUTS_NAME` group column. -/
def gNoName : GeoDataFrame := ⟨["v_mean"], [[.num 1]]⟩

/-! Shared helper lemmas. -/

/-- When no element is accepted, the filtered list is empty. -/
theorem find?_none_filter {α : Type} (p : α → Bool) (l : List α)
    (h : l.find? p = none) : l.filter p = [] :=
  List.filter_eq_nil_iff.mpr (List.find?_eq_none.mp h)

/-- The first element accepted by `p`, when one exists, heads the filtered
list. -/
theorem find?_some_filter {α : Type} (p : α → Bool) :
    ∀ (l : List α) (r : α), l.find? p = some r → ∃ t, l.filter p = r :: t := by
  intro l
  induction l with
  | nil => intro r h; simp [List.find?] at h
  | cons a l ih =>
    intro r h
    by_cases hp : p a
    · rw [List.find?_cons_of_pos _ hp] at h
      cases h
      exact ⟨l.filter p, by rw [List.filter_cons_of_pos hp]⟩
    · rw [List.find?_cons_of_neg _ hp] at h
      obtain ⟨t, ht⟩ := ih r h
      exact ⟨t, by rw [List.filter_cons_of_neg hp, ht]⟩

/-- A cell's string content is `some s` exactly when the cell is `Cell.str s`. -/
theorem str?_eq_some {c : Cell} {s : String} : c.str? = some s ↔ c = Cell.str s := by
  cases c <;> simp [Cell.str?]

/-! Claim theorems. -/

/-- C1 (amended): every boundary query resolves the shapefile path to
`Data/Yearly/<folder>/<folder>.shp` where `<folder>` is the exact
interpolation `{country}_{indicator}_NUTS{level}_{year}`; every crop query
resolves the same way with `<folder> = DE_landuse_{crop'}_NUTS{level}_{year}`
where `crop'` is the crop name with every space replaced by an underscore and
the country component is fixed to `DE`; the folder name is reused as the file
name, and when the resolved file exists the readers hand exactly this path to
the parser. -/
theorem resolve_path_amended (w : World) (country_code file_name crop_name : String)
    (nuts_level year : Nat) :
    nutsShpPath country_code file_name nuts_level year =
      "Data/Yearly/" ++ nutsFolder country_code file_name nuts_level year ++ "/" ++
        nutsFolder country_code file_name nuts_level year ++ ".shp" ∧
    nutsFolder country_code file_name nuts_level year =
      country_code ++ "_" ++ file_name ++ "_NUTS" ++ toString nuts_level ++ "_" ++
        toString year ∧
    cropShpPath crop_name nuts_level year =
      "Data/Yearly/" ++ cropFolder crop_name nuts_level year ++ "/" ++
        cropFolder crop_name nuts_level year ++ ".shp" ∧
    cropFolder crop_name nuts_level year =
      "DE_landuse_" ++ crop_name_clean crop_name ++ "_NUTS" ++ toString nuts_level ++
        "_" ++ toString year ∧
    (w.fileExists (nutsShpPath country_code file_name nuts_level year) = true →
      read_nuts w country_code file_name nuts_level year =
        w.parseFile (nutsShpPath country_code file_name nuts_level year)) ∧
    (w.fileExists (cropShpPath crop_name nuts_level year) = true →
      read_crop w crop_name nuts_level year =
        w.parseFile (cropShpPath crop_name nuts_level year)) := by
  refine ⟨rfl, rfl, rfl, rfl, ?_, ?_⟩ <;> intro h <;> simp [read_nuts, read_crop, h]

theorem resolve_path_amended_witness :
    read_nuts wTest "DE" "airtemp" 2 2022 =
      .ok ⟨["Data/Yearly/DE_airtemp_NUTS2_2022/DE_airtemp_NUTS2_2022.shp"], []⟩ ∧
    read_crop wTest "winter wheat" 2 2022 =
      .ok ⟨["Data/Yearly/DE_landuse_winter_wheat_NUTS2_2022/DE_landuse_winter_wheat_NUTS2_2022.shp"],
        []⟩ := by
  have h := resolve_path_amended wTest "DE" "airtemp" "winter wheat" 2 2022
  exact ⟨h.2.2.2.2.1 rfl, h.2.2.2.2.2 rfl⟩

/-- C1 counterexample: for the crop name `"winter wheat"` the resolved path is
not the exact interpolation `{country}_landuse_{crop}_NUTS{level}_{year}`
claimed (spaces are replaced by underscores first). -/
theorem resolve_path_counterexample :
    (cropShpPath "winter wheat" 2 2022 ==
      "Data/Yearly/DE_landuse_winter wheat_NUTS2_2022/DE_landuse_winter wheat_NUTS2_2022.shp") =
        false ∧
    cropShpPath "winter wheat" 2 2022 =
      "Data/Yearly/DE_landuse_winter_wheat_NUTS2_2022/DE_landuse_winter_wheat_NUTS2_2022.shp" := by
  exact ⟨by decide, by decide⟩

/-- C9: every crop query resolves the folder name
`DE_landuse_{crop'}_NUTS{nuts_level}_{year}` where `crop'` is the crop name
with every space character replaced by an underscore (length and every
non-space character preserved, no space remains), and the country component
is fixed to `DE`. -/
theorem crop_folder_spec (crop_name : String) (nuts_level year : Nat) :
    cropFolder crop_name nuts_level year =
      "DE_landuse_" ++ crop_name_clean crop_name ++ "_NUTS" ++ toString nuts_level ++
        "_" ++ toString year ∧
    (crop_name_clean crop_name).data.length = crop_name.data.length ∧
    (∀ i, i < crop_name.data.length →
      (crop_name_clean crop_name).data.getD i ' ' =
        if crop_name.data.getD i ' ' = ' ' then '_' else crop_name.data.getD i ' ') ∧
    (∀ c ∈ (crop_name_clean crop_name).data, c ≠ ' ') := by
  refine ⟨rfl, by simp [crop_name_clean], ?_, ?_⟩
  · intro i hi
    simp [crop_name_clean, List.getD_eq_getElem?_getD, List.getElem?_map,
      List.getElem?_eq_getElem hi]
  · intro c hc
    simp only [crop_name_clean] at hc
    obtain ⟨a, ha, rfl⟩ := List.mem_map.mp hc
    by_cases h : a = ' ' <;> simp [h]

theorem crop_folder_spec_witness :
    cropFolder "winter wheat" 2 2022 =
      "DE_landuse_" ++ crop_name_clean "winter wheat" ++ "_NUTS" ++ toString 2 ++
        "_" ++ toString 2022 ∧
    (crop_name_clean "winter wheat").data.getD 6 ' ' = '_' := by
  have h := crop_folder_spec "winter wheat" 2 2022
  refine ⟨h.1, ?_⟩
  have h6 := h.2.2.1 6 (by decide)
  rw [h6]
  decide

/-- C6: when the resolved backing file does not exist, `_read_nuts` and
`_read_crop` fail with `FileNotFoundError` (the spec's `NotFoundError`), and
the parser is never invoked: the result is the same for any two parsers. -/
theorem read_missing_spec (ex : String → Bool) (p p' : String → Except PyErr GeoDataFrame)
    (country_code file_name crop_name : String) (nuts_level year : Nat)
    (hn : ex (nutsShpPath country_code file_name nuts_level year) = false)
    (hc : ex (cropShpPath crop_name nuts_level year) = false) :
    read_nuts ⟨ex, p⟩ country_code file_name nuts_level year =
      .error (.fileNotFoundError
        ("NUTS shapefile not found: " ++ nutsShpPath country_code file_name nuts_level year)) ∧
    read_nuts ⟨ex, p⟩ country_code file_name nuts_level year =
      read_nuts ⟨ex, p'⟩ country_code file_name nuts_level year ∧
    read_crop ⟨ex, p⟩ crop_name nuts_level year =
      .error (.fileNotFoundError
        ("Crop shapefile not found: " ++ cropShpPath crop_name nuts_level year)) ∧
    read_crop ⟨ex, p⟩ crop_name nuts_level year =
      read_crop ⟨ex, p'⟩ crop_name nuts_level year := by
  refine ⟨?_, ?_, ?_, ?_⟩ <;> simp [read_nuts, read_crop, hn, hc]

theorem read_missing_spec_witness :
    read_nuts ⟨fun _ => false, fun _ => .ok gT⟩ "DE" "airtemp" 2 2022 =
      .error (.fileNotFoundError
        "NUTS shapefile not found: Data/Yearly/DE_airtemp_NUTS2_2022/DE_airtemp_NUTS2_2022.shp") ∧
    read_crop ⟨fun _ => false, fun _ => .ok gT⟩ "wheat" 2 2022 =
      .error (.fileNotFoundError
        "Crop shapefile not found: Data/Yearly/DE_landuse_wheat_NUTS2_2022/DE_landuse_wheat_NUTS2_2022.shp") := by
  have h := read_missing_spec (fun _ => false) (fun _ => .ok gT)
    (fun _ => .error (.valueError "parse failure")) "DE" "airtemp" "wheat" 2 2022 rfl rfl
  exact ⟨h.1, h.2.2.1⟩

/-- C8: two successive loads of the same dataset under the same world yield
tables with identical columns and identical rows; the embedding is pure, so
no call mutates the files or any state shared across calls. -/
theorem load_roundtrip (w : World) (country_code file_name crop_name : String)
    (nuts_level year : Nat) (g₁ g₂ gc₁ gc₂ : GeoDataFrame)
    (h₁ : read_nuts w country_code file_name nuts_level year = .ok g₁)
    (h₂ : read_nuts w country_code file_name nuts_level year = .ok g₂)
    (hc₁ : read_crop w crop_name nuts_level year = .ok gc₁)
    (hc₂ : read_crop w crop_name nuts_level year = .ok gc₂) :
    (g₁.columns = g₂.columns ∧ g₁.rows = g₂.rows) ∧
    (gc₁.columns = gc₂.columns ∧ gc₁.rows = gc₂.rows) := by
  have e₁ := h₁.symm.trans h₂
  have e₂ := hc₁.symm.trans hc₂
  have g₁₂ := Except.ok.inj e₁
  have gc₁₂ := Except.ok.inj e₂
  subst g₁₂
  subst gc₁₂
  exact ⟨⟨rfl, rfl⟩, ⟨rfl, rfl⟩⟩

theorem load_roundtrip_witness :
    (gT.columns = gT.columns ∧ gT.rows = gT.rows) ∧
    (gT.columns = gT.columns ∧ gT.rows = gT.rows) :=
  load_roundtrip wConst "DE" "airtemp" "wheat" 2 2022 gT gT gT gT rfl rfl rfl rfl

/-- C3: `get_district_value` filters rows by exact equality on the key column
`NUTS_ID`; when no row matches it raises `KeyError` (the spec's
`NotFoundError`); when one or more rows match it returns the requested
column's value from the first matching row in load order (duplicate keys are
not an error). -/
theorem get_district_value_spec (g : GeoDataFrame) (nuts_id col : String)
    (nuts_level i j : Nat)
    (hi : colIdx g "NUTS_ID" = some i) (hj : colIdx g col = some j) :
    (g.rows.find? (fun r => cellAt r i == Cell.str nuts_id) = none →
      get_district_value g nuts_id nuts_level (some col) =
        .error (.keyError ("District " ++ nuts_id ++ " not found in NUTS" ++
          toString nuts_level ++ "."))) ∧
    (∀ r, g.rows.find? (fun r => cellAt r i == Cell.str nuts_id) = some r →
      get_district_value g nuts_id nuts_level (some col) = .ok (cellAt r j)) := by
  constructor
  · intro h
    have hf := find?_none_filter _ _ h
    simp [get_district_value, pickMeanColumn, hi, hj, idFilter, hf]
  · intro r h
    obtain ⟨t, ht⟩ := find?_some_filter _ _ _ h
    simp [get_district_value, pickMeanColumn, hi, hj, idFilter, ht]

theorem get_district_value_spec_witness :
    get_district_value gNuts "DE1" 2 (some "t_mean") = .ok (.num 7) ∧
    get_district_value gNuts "DE9" 2 (some "t_mean") =
      .error (.keyError "District DE9 not found in NUTS2.") := by
  refine ⟨?_, ?_⟩
  · exact (get_district_value_spec gNuts "DE1" "t_mean" 2 0 2 rfl rfl).2
      [Cell.str "DE1", Cell.str "X", Cell.num 7, Cell.nan] (by decide)
  · exact (get_district_value_spec gNuts "DE9" "t_mean" 2 0 2 rfl rfl).1 (by decide)

/-- C4: `mean_columns` returns exactly the subsequence of the collection's
column names ending in the fixed suffix `"_mean"`, preserving the underlying
column order, and the empty sequence (not an error) when no column name has
that suffix. -/
theorem mean_columns_spec (g : GeoDataFrame) :
    (∀ c, c ∈ mean_columns g ↔ c ∈ g.columns ∧ endswith c "_mean" = true) ∧
    (mean_columns g).Sublist g.columns ∧
    ((∀ c ∈ g.columns, endswith c "_mean" = false) → mean_columns g = []) := by
  refine ⟨?_, List.filter_sublist _, ?_⟩
  · intro c
    simp [mean_columns, List.mem_filter]
  · intro h
    refine List.filter_eq_nil_iff.mpr ?_
    intro a ha
    simp [h a ha]

theorem mean_columns_spec_witness :
    mean_columns gNoMean = [] ∧ mean_columns gNuts = ["t_mean", "p_mean"] :=
  ⟨(mean_columns_spec gNoMean).2.2 (by decide), by decide⟩

/-- C5: when no explicit column is requested, the default mean column is the
first element of `mean_columns`; when `mean_columns` is empty the operation
fails with `ValueError` (the spec's `InvalidInputError`, message
`"No *_mean column found."`) instead of selecting a column. -/
theorem default_mean_column_spec (g : GeoDataFrame) (nuts_id : String) (nuts_level : Nat) :
    (mean_columns g = [] →
      get_district_value g nuts_id nuts_level none =
        .error (.valueError "No *_mean column found.")) ∧
    (∀ c cs, mean_columns g = c :: cs →
      get_district_value g nuts_id nuts_level none =
        get_district_value g nuts_id nuts_level (some c)) := by
  constructor
  · intro h
    simp [get_district_value, pickMeanColumn, h]
  · intro c cs h
    simp [get_district_value, pickMeanColumn, h]

theorem default_mean_column_spec_witness :
    get_district_value gNoMean "DE0" 2 none = .error (.valueError "No *_mean column found.") ∧
    get_district_value gNuts "DE0" 2 none = get_district_value gNuts "DE0" 2 (some "t_mean") :=
  ⟨(default_mean_column_spec gNoMean "DE0" 2).1 (by decide),
   (default_mean_column_spec gNuts "DE0" 2).2 "t_mean" ["p_mean"] (by decide)⟩

/-- C7: `get_nuts_names` returns the `NUTS_NAME` label column verbatim as a
sequence: one entry per row, duplicates included, in the row order of the
loaded table. -/
theorem get_nuts_names_spec (g : GeoDataFrame) (k : Nat)
    (hk : colIdx g "NUTS_NAME" = some k) :
    ∃ names, get_nuts_names g = .ok names ∧
      names.length = g.rows.length ∧
      ∀ i, i < g.rows.length → names.getD i Cell.nan = cellAt (g.rows.getD i []) k := by
  refine ⟨g.rows.map (fun r => cellAt r k), ?_, by simp, ?_⟩
  · simp [get_nuts_names, hk]
  · intro i hi
    simp [List.getD_eq_getElem?_getD, List.getElem?_map, List.getElem?_eq_getElem hi]

theorem get_nuts_names_spec_witness :
    get_nuts_names gNuts = .ok [.str "X", .str "X", .str "Y"] ∧
    (∃ names, get_nuts_names gNuts = .ok names ∧
      names.length = gNuts.rows.length ∧
      ∀ i, i < gNuts.rows.length → names.getD i Cell.nan = cellAt (gNuts.rows.getD i []) 1) :=
  ⟨by decide, get_nuts_names_spec gNuts 1 (by decide)⟩

/-- C10: `get_crop_mean` returns the arithmetic mean of the requested column
taken over all rows of the whole table (NaN values skipped; a NaN result when
no numeric entry exists), and fails with `ValueError` (the spec's
`InvalidInputError`) when the column is absent; it is a whole-table
aggregate, not grouped. -/
theorem get_crop_mean_spec (g : GeoDataFrame) (column : String) :
    (colIdx g column = none →
      get_crop_mean g column =
        .error (.valueError ("Column " ++ column ++ " not found in crop shapefile."))) ∧
    (∀ j, colIdx g column = some j →
      get_crop_mean g column = .ok (meanOpt (colCells g j)) ∧
      ∀ q, meanOpt (colCells g j) = some q →
        ((colCells g j).filterMap Cell.num?) ≠ [] ∧
        q * (((colCells g j).filterMap Cell.num?).length : ℚ) =
          ((colCells g j).filterMap Cell.num?).sum) := by
  refine ⟨?_, ?_⟩
  · intro h
    simp [get_crop_mean, h]
  · intro j hj
    refine ⟨by simp [get_crop_mean, hj], ?_⟩
    intro q hq
    simp only [meanOpt] at hq
    by_cases hne : ((colCells g j).filterMap Cell.num?).isEmpty = true
    · simp [hne] at hq
    · simp [hne] at hq
      have hnil : ((colCells g j).filterMap Cell.num?) ≠ [] := by
        intro h0
        exact hne (by simp [h0])
      have hlen : (((colCells g j).filterMap Cell.num?).length : ℚ) ≠ 0 :=
        Nat.cast_ne_zero.mpr (Nat.pos_iff_ne_zero.mp (List.length_pos.mpr hnil))
      refine ⟨hnil, ?_⟩
      rw [← hq, div_mul_cancel₀ _ hlen]

theorem get_crop_mean_spec_witness :
    get_crop_mean gCropEx "value" = .ok (some (35 / 3)) ∧
    get_crop_mean gCropEx "area" =
      .error (.valueError "Column area not found in crop shapefile.") := by
  constructor
  · have h := ((get_crop_mean_spec gCropEx "value").2 1 (by decide)).1
    rw [h]
    have hc : colCells gCropEx 1 = [Cell.num 10, Cell.num 20, Cell.num 5] := by decide
    rw [hc]
    norm_num [meanOpt, Cell.num?, List.filterMap_cons, List.filterMap_nil]
  · exact (get_crop_mean_spec gCropEx "area").1 (by decide)

/-- C2 (amended): `get_crop_mean_per_district` groups rows by the fixed group
column `NUTS_NAME` (the group column is not a parameter) and returns a
mapping whose keys are exactly the string labels occurring in that column
(each once) and whose value at each label is the arithmetic mean of the
value column over that label's rows, skipping missing (NaN) values; on the
spec's example rows `[("A",10),("A",20),("B",5)]` it yields
`{"A": 15, "B": 5}`; it fails with `ValueError` (the spec's
`InvalidInputError`) when the value column is absent, but with `KeyError`
(the spec's `NotFoundError`) — not `ValueError` — when the `NUTS_NAME` group
column is absent. -/
theorem get_crop_mean_per_district_spec (g : GeoDataFrame) (column : String) :
    (colIdx g column = none →
      get_crop_mean_per_district g column =
        .error (.valueError ("Column " ++ column ++ " not found in crop shapefile."))) ∧
    (∀ j, colIdx g column = some j → colIdx g "NUTS_NAME" = none →
      get_crop_mean_per_district g column =
        .error (.keyError "Column 'NUTS_NAME' not found in crop shapefile.")) ∧
    (∀ j k, colIdx g column = some j → colIdx g "NUTS_NAME" = some k →
      ∃ m, get_crop_mean_per_district g column = .ok m ∧
        (m.map Prod.fst).Nodup ∧
        (∀ key v, (key, v) ∈ m ↔
          ((∃ r ∈ g.rows, cellAt r k = Cell.str key) ∧
            v = meanOpt ((groupRows g k key).map (fun r => cellAt r j))))) := by
  refine ⟨?_, ?_, ?_⟩
  · intro h
    simp [get_crop_mean_per_district, h]
  · intro j hj hk
    simp [get_crop_mean_per_district, hj, hk]
  · intro j k hj hk
    refine ⟨(groupLabels g k).map
        (fun key => (key, meanOpt ((groupRows g k key).map (fun r => cellAt r j)))),
      by simp [get_crop_mean_per_district, hj, hk], ?_, ?_⟩
    · have : ((groupLabels g k).map
          (fun key => (key, meanOpt ((groupRows g k key).map (fun r => cellAt r j))))).map
            Prod.fst = groupLabels g k := by
        rw [List.map_map]
        exact List.map_id _
      rw [this]
      exact List.nodup_dedup _
    · intro key v
      constructor
      · intro hm
        obtain ⟨a, ha, hav⟩ := List.mem_map.mp hm
        cases hav
        refine ⟨?_, rfl⟩
        have hmem := List.mem_dedup.mp ha
        obtain ⟨r, hr, hsome⟩ := List.mem_filterMap.mp hmem
        exact ⟨r, hr, str?_eq_some.mp hsome⟩
      · rintro ⟨⟨r, hr, hcell⟩, rfl⟩
        refine List.mem_map.mpr ⟨key, ?_, rfl⟩
        refine List.mem_dedup.mpr (List.mem_filterMap.mpr ⟨r, hr, ?_⟩)
        rw [hcell]
        rfl

theorem get_crop_mean_per_district_spec_witness :
    get_crop_mean_per_district gCropEx "value" = .ok [("A", some 15), ("B", some 5)] ∧
    get_crop_mean_per_district gNoName "NUTS_NAME" =
      .error (.valueError "Column NUTS_NAME not found in crop shapefile.") := by
  constructor
  · have h1 : colIdx gCropEx "value" = some 1 := by decide
    have h2 : colIdx gCropEx "NUTS_NAME" = some 0 := by decide
    have h3 : groupLabels gCropEx 0 = ["A", "B"] := by decide
    have h4 : (groupRows gCropEx 0 "A").map (fun r => cellAt r 1) =
        [Cell.num 10, Cell.num 20] := by decide
    have h5 : (groupRows gCropEx 0 "B").map (fun r => cellAt r 1) = [Cell.num 5] := by decide
    have h6 : meanOpt [Cell.num 10, Cell.num 20] = some 15 := by
      norm_num [meanOpt, Cell.num?, List.filterMap_cons, List.filterMap_nil]
    have h7 : meanOpt [Cell.num 5] = some 5 := by
      norm_num [meanOpt, Cell.num?, List.filterMap_cons, List.filterMap_nil]
    simp [get_crop_mean_per_district, h1, h2, h3, h4, h5, h6, h7]
  · exact (get_crop_mean_per_district_spec gNoName "NUTS_NAME").1 (by decide)

/-- C2 counterexample: on a table having the value column `"v_mean"` but no
`NUTS_NAME` group column, `get_crop_mean_per_district` raises `KeyError`
(the spec's `NotFoundError`), not `ValueError` (`InvalidInputError`) as
claimed. -/
theorem get_crop_mean_per_district_counterexample :
    isValueError (get_crop_mean_per_district gNoName "v_mean") = false ∧
    get_crop_mean_per_district gNoName "v_mean" =
      .error (.keyError "Column 'NUTS_NAME' not found in crop shapefile.") :=
  ⟨by decide, by decide⟩

end LanduseV1
